import Mathlib

/-!
# Verification of the kubewait condition-evaluation and polling engine

Shallow embedding of `internal/kubernetes/conditions.go` and the lifecycle
adapter in `provider/resource_nodes.go` (BaseWaitResource.Create / Read),
together with theorems settling the specification claims.

Modelling conventions:
* Go strings are Lean `String`s; `strings.TrimSpace` / `strings.ToLower` are
  modelled on the ASCII range actually exercised by condition expressions.
* `time.Duration` values and timestamps are modelled as `Nat` time units
  (the provider passes whole seconds).
* The Kubernetes list call is modelled by handing each strategy the list its
  client returns for the checker's selectors; label/field-selector filtering
  happens inside the external API and is therefore part of the client's view,
  not re-implemented here.  The transport-error path of a list call is not
  modelled (no claim depends on it).
* The lazily initialised global registry `resourceConditionCheckers` stores
  method values bound to the `ConditionChecker` receiver that first populated
  it; the registry state is modelled as `Option Checker` (the bound receiver),
  `none` meaning the map is still empty.
-/

namespace Kubewait

/-! ## Go string helpers (`strings` package, ASCII range) -/

/-- Whitespace recognised by `strings.TrimSpace` (ASCII range). -/
def isSpaceChar (c : Char) : Bool :=
  c = ' ' || c = '\t' || c = '\n' || c = '\r' || c = '\x0b' || c = '\x0c'

/-- Trim leading and trailing whitespace from a character list. -/
def trimSpaceList (s : List Char) : List Char :=
  ((s.dropWhile isSpaceChar).reverse.dropWhile isSpaceChar).reverse

/-- `strings.TrimSpace`. -/
def goTrimSpace (s : String) : String :=
  String.mk (trimSpaceList s.toList)

/-- `strings.ToLower` (ASCII range). -/
def goToLower (s : String) : String :=
  String.mk (s.toList.map Char.toLower)

/-- Split a character list at the first `'='`, if any: the model of
`strings.SplitN(s, "=", 2)` producing two parts. -/
def splitAtFirstEq : List Char → Option (List Char × List Char)
  | [] => none
  | c :: cs =>
    if c = '=' then some ([], cs)
    else
      match splitAtFirstEq cs with
      | none => none
      | some (a, b) => some (c :: a, b)

/-! ## Data model (`conditions.go`) -/

/-- `WaitConfig`: the caller-supplied wait specification. -/
structure WaitConfig where
  resource : String
  name : String
  nspace : String
  labels : String
  fieldSelector : String
  condition : String
  all : Bool
  timeout : Nat
  checkInterval : Nat
deriving DecidableEq, Repr

/-- `WaitResult`: the externally visible result of one check. -/
structure WaitResult where
  conditionMet : Bool
  lastChecked : Nat
  message : String
deriving DecidableEq, Repr

/-- One entry of a Kubernetes object's status condition list. -/
structure K8sCondition where
  condType : String
  status : String
deriving DecidableEq, Repr

/-- A listed node: name plus status conditions. -/
structure Node where
  name : String
  conditions : List K8sCondition
deriving DecidableEq, Repr

/-- A listed pod: name, status conditions and phase. -/
structure Pod where
  name : String
  conditions : List K8sCondition
  phase : String
deriving DecidableEq, Repr

/-- A listed deployment: name plus status conditions. -/
structure Deployment where
  name : String
  conditions : List K8sCondition
deriving DecidableEq, Repr

/-- A listed service (the strategy only uses presence). -/
structure Service where
  name : String
deriving DecidableEq, Repr

/-- A listed daemonset: name plus scheduling counters. -/
structure DaemonSet where
  name : String
  desiredNumberScheduled : Int
  numberReady : Int
deriving DecidableEq, Repr

/-- A listed statefulset: name, declared replicas (`*int32`), ready count. -/
structure StatefulSet where
  name : String
  replicas : Option Int
  readyReplicas : Int
deriving DecidableEq, Repr

/-- A listed job: name, status conditions and succeeded count. -/
structure Job where
  name : String
  conditions : List K8sCondition
  succeeded : Int
deriving DecidableEq, Repr

/-- A listed cronjob (the strategy only uses presence). -/
structure CronJob where
  name : String
deriving DecidableEq, Repr

/-- A listed ingress: name plus the number of load-balancer ingress entries. -/
structure Ingress where
  name : String
  loadBalancerIngress : Nat
deriving DecidableEq, Repr

/-! ## Condition parsing (`parseCondition`) -/

/-- `parseCondition`: split the condition string at the first `'='`; the kind
is lower-cased and trimmed, the value trimmed at its outer edges.  `none`
models the `condition must be in format 'type=value'` error. -/
def parseCondition (cond : String) : Option (String × String) :=
  match splitAtFirstEq cond.toList with
  | none => none
  | some (k, v) => some (goToLower (goTrimSpace (String.mk k)), goTrimSpace (String.mk v))

/-! ## Evaluation strategies

Each `checkXCondition` takes the configuration, the current time, the list
returned by the client for this checker's selectors, and the parsed condition
kind/value. -/

/-- Name filtering as done by the node and pod strategies: when
`Config.Name` is set, replace the list by the objects bearing that name. -/
def filterByName (nm : String) (getName : α → String) (items : List α) : List α :=
  if nm ≠ "" then items.filter (fun x => getName x == nm) else items

/-- Name filtering as done by the deployment, daemonset, statefulset, job,
cronjob and ingress strategies: when `Config.Name` is set, the list is
cleared only when no object bears that name, and kept whole otherwise. -/
def keepAllIfNamed (nm : String) (getName : α → String) (items : List α) : List α :=
  if nm ≠ "" && !(items.any (fun x => getName x == nm)) then [] else items

/-- The count of listed objects satisfying the per-object test (the
`readyX++` loop of each strategy). -/
def countMatching (p : α → Bool) (items : List α) : Nat :=
  (items.filter p).length

/-- The `"<matched>/<total> <kind> meet condition <expr>"` status message. -/
def countMessage (ready total : Nat) (kindLabel cond : String) : String :=
  toString ready ++ "/" ++ toString total ++ " " ++ kindLabel ++ " meet condition " ++ cond

/-- The aggregation tail shared verbatim by the counting strategies:
`All` demands `ready == total`, otherwise `ready > 0` suffices. -/
def aggregateResult (all : Bool) (ready total : Nat) (kindLabel cond : String)
    (now : Nat) : WaitResult :=
  { conditionMet := if all then ready == total else decide (0 < ready)
    lastChecked := now
    message := countMessage ready total kindLabel cond }

/-- Per-node test: a `condition`-kind expression is satisfied when some
status condition has the requested type with status `True`. -/
def nodeMatches (ct cv : String) (n : Node) : Bool :=
  ct == "condition" && n.conditions.any (fun c => c.condType == cv && c.status == "True")

/-- The evaluated set of the node strategy after name filtering. -/
def nodeEvalSet (cfg : WaitConfig) (nodes : List Node) : List Node :=
  filterByName cfg.name Node.name nodes

/-- `checkNodeCondition`. -/
def checkNodeCondition (cfg : WaitConfig) (now : Nat) (nodes : List Node)
    (ct cv : String) : WaitResult :=
  let items := nodeEvalSet cfg nodes
  if items.isEmpty then
    { conditionMet := false, lastChecked := now, message := "No matching nodes found" }
  else
    aggregateResult cfg.all (countMatching (nodeMatches ct cv) items) items.length
      "nodes" cfg.condition now

/-- Per-pod test: `condition`-kind as for nodes, or `phase`-kind comparing
the pod phase for exact equality. -/
def podMatches (ct cv : String) (p : Pod) : Bool :=
  (ct == "condition" && p.conditions.any (fun c => c.condType == cv && c.status == "True"))
    || (ct == "phase" && p.phase == cv)

/-- The evaluated set of the pod strategy after name filtering. -/
def podEvalSet (cfg : WaitConfig) (pods : List Pod) : List Pod :=
  filterByName cfg.name Pod.name pods

/-- `checkPodCondition`. -/
def checkPodCondition (cfg : WaitConfig) (now : Nat) (pods : List Pod)
    (ct cv : String) : WaitResult :=
  let items := podEvalSet cfg pods
  if items.isEmpty then
    { conditionMet := false, lastChecked := now, message := "No matching pods found" }
  else
    aggregateResult cfg.all (countMatching (podMatches ct cv) items) items.length
      "pods" cfg.condition now

/-- Per-deployment test: `condition`-kind only. -/
def deploymentMatches (ct cv : String) (d : Deployment) : Bool :=
  ct == "condition" && d.conditions.any (fun c => c.condType == cv && c.status == "True")

/-- The evaluated set of the deployment strategy: the whole list is kept
whenever the named deployment is present. -/
def deploymentEvalSet (cfg : WaitConfig) (ds : List Deployment) : List Deployment :=
  keepAllIfNamed cfg.name Deployment.name ds

/-- `checkDeploymentCondition`. -/
def checkDeploymentCondition (cfg : WaitConfig) (now : Nat) (ds : List Deployment)
    (ct cv : String) : WaitResult :=
  let items := deploymentEvalSet cfg ds
  if items.isEmpty then
    { conditionMet := false, lastChecked := now, message := "No matching deployments found" }
  else
    aggregateResult cfg.all (countMatching (deploymentMatches ct cv) items) items.length
      "deployments" cfg.condition now

/-- `checkServiceCondition`: no name filtering, and the parsed condition is
ignored entirely; any non-empty list yields success with an ad-hoc message. -/
def checkServiceCondition (cfg : WaitConfig) (now : Nat) (services : List Service)
    (ct cv : String) : WaitResult :=
  if services.isEmpty then
    { conditionMet := false, lastChecked := now, message := "No matching services found" }
  else
    { conditionMet := true, lastChecked := now
      message := "Found " ++ toString services.length ++ " matching services" }

/-- Per-daemonset test: both `condition` and `ready` compare desired
scheduled count against ready count. -/
def daemonSetMatches (ct cv : String) (d : DaemonSet) : Bool :=
  (ct == "condition" || ct == "ready") && d.desiredNumberScheduled == d.numberReady

/-- The evaluated set of the daemonset strategy (keep-all name handling). -/
def daemonSetEvalSet (cfg : WaitConfig) (ds : List DaemonSet) : List DaemonSet :=
  keepAllIfNamed cfg.name DaemonSet.name ds

/-- `checkDaemonSetCondition`. -/
def checkDaemonSetCondition (cfg : WaitConfig) (now : Nat) (ds : List DaemonSet)
    (ct cv : String) : WaitResult :=
  let items := daemonSetEvalSet cfg ds
  if items.isEmpty then
    { conditionMet := false, lastChecked := now, message := "No matching daemonsets found" }
  else
    aggregateResult cfg.all (countMatching (daemonSetMatches ct cv) items) items.length
      "daemonsets" cfg.condition now

/-- Per-statefulset test: declared replica count present and equal to the
ready-replica count, for `condition` and `ready` kinds. -/
def statefulSetMatches (ct cv : String) (s : StatefulSet) : Bool :=
  (ct == "condition" || ct == "ready")
    && (match s.replicas with
        | some r => s.readyReplicas == r
        | none => false)

/-- The evaluated set of the statefulset strategy (keep-all name handling). -/
def statefulSetEvalSet (cfg : WaitConfig) (ss : List StatefulSet) : List StatefulSet :=
  keepAllIfNamed cfg.name StatefulSet.name ss

/-- `checkStatefulSetCondition`. -/
def checkStatefulSetCondition (cfg : WaitConfig) (now : Nat) (ss : List StatefulSet)
    (ct cv : String) : WaitResult :=
  let items := statefulSetEvalSet cfg ss
  if items.isEmpty then
    { conditionMet := false, lastChecked := now, message := "No matching statefulsets found" }
  else
    aggregateResult cfg.all (countMatching (statefulSetMatches ct cv) items) items.length
      "statefulsets" cfg.condition now

/-- Per-job test: `condition`-kind as for nodes, or `complete`-kind requiring
a positive succeeded count. -/
def jobMatches (ct cv : String) (j : Job) : Bool :=
  (ct == "condition" && j.conditions.any (fun c => c.condType == cv && c.status == "True"))
    || (ct == "complete" && decide (0 < j.succeeded))

/-- The evaluated set of the job strategy (keep-all name handling). -/
def jobEvalSet (cfg : WaitConfig) (js : List Job) : List Job :=
  keepAllIfNamed cfg.name Job.name js

/-- `checkJobCondition`. -/
def checkJobCondition (cfg : WaitConfig) (now : Nat) (js : List Job)
    (ct cv : String) : WaitResult :=
  let items := jobEvalSet cfg js
  if items.isEmpty then
    { conditionMet := false, lastChecked := now, message := "No matching jobs found" }
  else
    aggregateResult cfg.all (countMatching (jobMatches ct cv) items) items.length
      "jobs" cfg.condition now

/-- Per-cronjob test: `jsonpath`, `exist` and `exists` are satisfied by mere
presence. -/
def cronJobMatches (ct cv : String) (cj : CronJob) : Bool :=
  ct == "jsonpath" || ct == "exist" || ct == "exists"

/-- The evaluated set of the cronjob strategy (keep-all name handling). -/
def cronJobEvalSet (cfg : WaitConfig) (cjs : List CronJob) : List CronJob :=
  keepAllIfNamed cfg.name CronJob.name cjs

/-- `checkCronJobCondition`. -/
def checkCronJobCondition (cfg : WaitConfig) (now : Nat) (cjs : List CronJob)
    (ct cv : String) : WaitResult :=
  let items := cronJobEvalSet cfg cjs
  if items.isEmpty then
    { conditionMet := false, lastChecked := now, message := "No matching cronjobs found" }
  else
    aggregateResult cfg.all (countMatching (cronJobMatches ct cv) items) items.length
      "cronjobs" cfg.condition now

/-- Per-ingress test: presence for `jsonpath`/`exist`/`exists`, and at least
one load-balancer ingress entry for `loadbalancer`. -/
def ingressMatches (ct cv : String) (ing : Ingress) : Bool :=
  ct == "jsonpath" || ct == "exist" || ct == "exists"
    || (ct == "loadbalancer" && decide (0 < ing.loadBalancerIngress))

/-- The evaluated set of the ingress strategy (keep-all name handling). -/
def ingressEvalSet (cfg : WaitConfig) (ings : List Ingress) : List Ingress :=
  keepAllIfNamed cfg.name Ingress.name ings

/-- `checkIngressCondition`. -/
def checkIngressCondition (cfg : WaitConfig) (now : Nat) (ings : List Ingress)
    (ct cv : String) : WaitResult :=
  let items := ingressEvalSet cfg ings
  if items.isEmpty then
    { conditionMet := false, lastChecked := now, message := "No matching ingresses found" }
  else
    aggregateResult cfg.all (countMatching (ingressMatches ct cv) items) items.length
      "ingresses" cfg.condition now

/-- `checkGenericCondition`: the fallback for unregistered kinds.  It is a
stated placeholder that always returns a not-implemented hard error together
with an unmet result. -/
def checkGenericCondition (cfg : WaitConfig) (now : Nat) : WaitResult × Option String :=
  ( { conditionMet := false, lastChecked := now
      message := "Generic condition checking for resource type '" ++ cfg.resource
        ++ "' not yet implemented" }
  , some ("generic condition checking not implemented for resource type: " ++ cfg.resource) )

/-! ## Registry and `CheckCondition` -/

/-- The strategies registered in `resourceConditionCheckers`. -/
inductive StrategyTag where
  | node | pod | deployment | service | daemonset | statefulset | job | cronjob | ingress
deriving DecidableEq, Repr

/-- The key set of `resourceConditionCheckers` as built by
`initResourceCheckers` (note `ingress` is registered only in the singular). -/
def registryLookup (rt : String) : Option StrategyTag :=
  match rt with
  | "node" | "nodes" => some .node
  | "pod" | "pods" => some .pod
  | "deployment" | "deployments" => some .deployment
  | "service" | "services" => some .service
  | "daemonset" | "daemonsets" => some .daemonset
  | "statefulset" | "statefulsets" => some .statefulset
  | "job" | "jobs" => some .job
  | "cronjob" | "cronjobs" => some .cronjob
  | "ingress" => some .ingress
  | _ => none

/-- Registry resolution in `CheckCondition`: exact lookup of the lower-cased
kind, then a retry with a trailing `"s"` stripped; `none` means the generic
fallback is used. -/
def resolveStrategy (rt : String) : Option StrategyTag :=
  match registryLookup rt with
  | some t => some t
  | none =>
    if rt.toList.getLast? = some 's' then
      registryLookup (String.mk rt.toList.dropLast)
    else none

/-- What one checker's client returns for each kind, given this checker's
namespace and selectors (the external list API applied to them). -/
structure ClusterView where
  nodes : List Node
  pods : List Pod
  deployments : List Deployment
  services : List Service
  daemonsets : List DaemonSet
  statefulsets : List StatefulSet
  jobs : List Job
  cronjobs : List CronJob
  ingresses : List Ingress
deriving DecidableEq, Repr

/-- A cluster view with no objects of any kind. -/
def emptyView : ClusterView :=
  ⟨[], [], [], [], [], [], [], [], []⟩

/-- `ConditionChecker`: a client (its view of the cluster) plus a config. -/
structure Checker where
  view : ClusterView
  cfg : WaitConfig
deriving DecidableEq, Repr

/-- Run a registered strategy.  The strategy is a method value bound to
`owner` — the checker whose `initResourceCheckers` call populated the global
map — so it reads `owner`'s client and config throughout.  The parsed
condition kind/value are passed in by the caller.  Kind checkers return no
hard error on a successful list (the transport-error path is not modelled). -/
def runStrategy (tag : StrategyTag) (owner : Checker) (now : Nat)
    (ct cv : String) : WaitResult × Option String :=
  match tag with
  | .node => (checkNodeCondition owner.cfg now owner.view.nodes ct cv, none)
  | .pod => (checkPodCondition owner.cfg now owner.view.pods ct cv, none)
  | .deployment => (checkDeploymentCondition owner.cfg now owner.view.deployments ct cv, none)
  | .service => (checkServiceCondition owner.cfg now owner.view.services ct cv, none)
  | .daemonset => (checkDaemonSetCondition owner.cfg now owner.view.daemonsets ct cv, none)
  | .statefulset => (checkStatefulSetCondition owner.cfg now owner.view.statefulsets ct cv, none)
  | .job => (checkJobCondition owner.cfg now owner.view.jobs ct cv, none)
  | .cronjob => (checkCronJobCondition owner.cfg now owner.view.cronjobs ct cv, none)
  | .ingress => (checkIngressCondition owner.cfg now owner.view.ingresses ct cv, none)

/-- `CheckCondition` with the global registry state threaded explicitly.
`reg = none` models an empty `resourceConditionCheckers`; the first call
populates it with method values bound to the calling checker, and every
registered strategy thereafter executes against that first checker's client
and config.  Parsing, kind resolution and the generic fallback use the
calling checker. -/
def checkCondition (reg : Option Checker) (caller : Checker) (now : Nat) :
    Option Checker × (WaitResult × Option String) :=
  let reg' := match reg with
    | none => some caller
    | some r => some r
  match parseCondition caller.cfg.condition with
  | none =>
    (reg',
      ({ conditionMet := false, lastChecked := now
         message := "Invalid condition format: condition must be in format 'type=value'" }
      , some "condition must be in format 'type=value'"))
  | some (ct, cv) =>
    match resolveStrategy (goToLower caller.cfg.resource) with
    | some tag =>
      let owner := reg'.getD caller
      (reg', runStrategy tag owner now ct cv)
    | none => (reg', checkGenericCondition caller.cfg now)

/-! ## Polling driver (`WaitForCondition`)

The driver races a timeout timer (fixed deadline `timeout` from entry) against
a `time.Ticker` firing at `interval, 2*interval, ...`.  There is no tick at
time zero: the first evaluation can only happen at time `interval`.  The model
resolves the tie `k*interval = timeout` in favour of the timeout (in the
source this race is decided arbitrarily by `select`; no claim is settled at a
tie).  Evaluation `k` is modelled by `check k`, returning the `WaitResult` and
optional hard error of the `k`-th `CheckCondition` call; the driver returns
immediately on a hard error or a met condition, and otherwise keeps ticking.
Context cancellation is not modelled (no claim depends on it). -/

/-- Outcome of one driver run: final result, number of evaluations (= list
calls on the no-error path), return time, and the error returned, if any. -/
structure DriveOutcome where
  result : WaitResult
  evals : Nat
  elapsed : Nat
  error : Option String
deriving DecidableEq, Repr

/-- The timeout return: `"Timeout after <timeout>"` plus a
`timeout waiting for condition <expr>` error, after `k - 1` evaluations. -/
def timeoutOutcome (cond : String) (timeout k : Nat) : DriveOutcome :=
  { result := { conditionMet := false, lastChecked := timeout
                message := "Timeout after " ++ toString timeout }
    evals := k - 1
    elapsed := timeout
    error := some ("timeout waiting for condition " ++ cond) }

/-- The driver loop, about to wait for tick `k`; the fuel argument only
bounds the recursion and is chosen large enough to never run out when
`interval > 0`. -/
def waitDriveGo (cond : String) (check : Nat → WaitResult × Option String)
    (interval timeout : Nat) : Nat → Nat → DriveOutcome
  | 0, k => timeoutOutcome cond timeout k
  | fuel + 1, k =>
    if timeout ≤ k * interval then timeoutOutcome cond timeout k
    else
      match check k with
      | (r, some e) => { result := r, evals := k, elapsed := k * interval, error := some e }
      | (r, none) =>
        if r.conditionMet then
          { result := r, evals := k, elapsed := k * interval, error := none }
        else
          waitDriveGo cond check interval timeout fuel (k + 1)

/-- `WaitForCondition`: run the driver loop from the first tick. -/
def waitDrive (cond : String) (check : Nat → WaitResult × Option String)
    (interval timeout : Nat) : DriveOutcome :=
  waitDriveGo cond check interval timeout (timeout + 1) 1

/-! ## Lifecycle adapter (`BaseWaitResource.Create` / `Read`)

Only the driver-invocation and state-reproduction behaviour is embedded; the
client-configuration plumbing is orthogonal to the claims. -/

/-- The persisted state of a wait declaration relevant to reads. -/
structure WaitState where
  conditionMet : Bool
  lastChecked : Nat
  message : String
  checkOnce : Bool
deriving DecidableEq, Repr

/-- Outcome of a lifecycle operation: the state written back (none when the
operation aborted with a diagnostic) and the number of polling-driver
invocations (= wait loops, each performing the list calls) it made. -/
structure LifecycleOutcome where
  state : Option WaitState
  driverInvocations : Nat
deriving DecidableEq, Repr

/-- `BaseWaitResource.Create`: run the polling driver once; on a driver error
add a diagnostic and write no state, otherwise persist the result fields
verbatim together with the `check_once` flag. -/
def baseWaitCreate (cfg : WaitConfig) (checkOnce : Bool)
    (check : Nat → WaitResult × Option String) : LifecycleOutcome :=
  let o := waitDrive cfg.condition check cfg.checkInterval cfg.timeout
  match o.error with
  | some _ => { state := none, driverInvocations := 1 }
  | none =>
    { state := some { conditionMet := o.result.conditionMet
                      lastChecked := o.result.lastChecked
                      message := o.result.message
                      checkOnce := checkOnce }
      driverInvocations := 1 }

/-- `BaseWaitResource.Read`: when `check_once` is set and the prior state
reported success, the prior state is written back unchanged with no new
evaluation; in every other case the re-check is an unimplemented stub in the
source (`// Re-check the condition with a short timeout ...`) and the prior
state is likewise written back unchanged with no driver invocation. -/
def baseWaitRead (prior : WaitState) : LifecycleOutcome :=
  if prior.checkOnce && prior.conditionMet then
    { state := some prior, driverInvocations := 0 }
  else
    { state := some prior, driverInvocations := 0 }

/-! ## Helper lemmas -/

theorem splitAtFirstEq_eq_none (s : List Char) : splitAtFirstEq s = none ↔ '=' ∉ s := by
  induction s with
  | nil => simp [splitAtFirstEq]
  | cons c cs ih =>
    by_cases hc : c = '='
    · subst hc
      simp [splitAtFirstEq]
    · cases h : splitAtFirstEq cs with
      | none =>
        simp [splitAtFirstEq, hc, h, ih.mp h, Ne.symm hc]
      | some p =>
        simp only [splitAtFirstEq, if_neg hc, h]
        constructor
        · intro hn
          exact absurd hn (by simp)
        · intro hn
          exact absurd (h ▸ (ih.mpr (fun hmem => hn (List.mem_cons_of_mem _ hmem))))
            (by simp)

theorem splitAtFirstEq_append (a b : List Char) (h : '=' ∉ a) :
    splitAtFirstEq (a ++ '=' :: b) = some (a, b) := by
  induction a with
  | nil => simp [splitAtFirstEq]
  | cons c cs ih =>
    have hc : ¬ c = '=' := fun hcc => h (hcc ▸ List.mem_cons_self c cs)
    have h' : '=' ∉ cs := fun hmem => h (List.mem_cons_of_mem _ hmem)
    simp [splitAtFirstEq, hc, ih h']

theorem countMatching_eq_zero {p : α → Bool} {items : List α}
    (h : ∀ x ∈ items, p x = false) : countMatching p items = 0 := by
  unfold countMatching
  rw [List.filter_eq_nil_iff.mpr (fun x hx => by simp [h x hx])]
  rfl

theorem aggregateResult_zero_met (all : Bool) (total : Nat) (kindLabel cond : String)
    (now : Nat) (h : total ≠ 0) :
    (aggregateResult all 0 total kindLabel cond now).conditionMet = false := by
  unfold aggregateResult
  cases all <;> simp [Ne.symm h]

theorem filterByName_mem {nm : String} {getName : α → String} {items : List α}
    (hnm : nm ≠ "") {x : α} (hx : x ∈ filterByName nm getName items) :
    getName x = nm := by
  unfold filterByName at hx
  rw [if_pos hnm] at hx
  exact beq_iff_eq.mp (List.mem_filter.mp hx).2

theorem filter_name_length_le_one {getName : α → String} {items : List α} {nm : String}
    (hnodup : (items.map getName).Nodup) :
    (items.filter (fun x => getName x == nm)).length ≤ 1 := by
  induction items with
  | nil => simp
  | cons y ys ih =>
    simp only [List.map_cons, List.nodup_cons] at hnodup
    rw [List.filter_cons]
    by_cases hy : (getName y == nm) = true
    · have hnil : ys.filter (fun x => getName x == nm) = [] := by
        rw [List.filter_eq_nil_iff]
        intro z hz hzname
        exact hnodup.1 (by
          rw [List.mem_map]
          exact ⟨z, hz, (beq_iff_eq.mp hzname).trans (beq_iff_eq.mp hy).symm⟩)
      simp [hy, hnil]
    · simp only [hy, if_false]
      exact ih hnodup.2

theorem keepAllIfNamed_eq_nil {nm : String} {getName : α → String} {items : List α}
    (hnm : nm ≠ "") (h : ∀ x ∈ items, getName x ≠ nm) :
    keepAllIfNamed nm getName items = [] := by
  unfold keepAllIfNamed
  rw [if_pos]
  simp only [hnm, ne_eq, not_false_eq_true, decide_True, Bool.true_and,
    Bool.not_eq_true', List.any_eq_false]
  intro x hx hb
  exact h x hx (beq_iff_eq.mp hb)

theorem keepAllIfNamed_eq_self {nm : String} {getName : α → String} {items : List α}
    {x : α} (hx : x ∈ items) (hname : getName x = nm) :
    keepAllIfNamed nm getName items = items := by
  unfold keepAllIfNamed
  split
  · next hcond =>
    exfalso
    have := Bool.and_elim_right hcond
    rw [Bool.not_eq_true', List.any_eq_false] at this
    exact absurd (beq_iff_eq.mpr hname) (by simpa using this x hx)
  · rfl

/-! ## Claim C5 -/

/-- Claim C5: for every input string, the condition parser fails exactly when
no `'='` is present; otherwise it splits at the first `'='`, lower-casing and
trimming the kind and trimming the value only at its outer edges, so that
`"condition=Ready"` yields `(condition, Ready)` and
`"jsonpath={.status.readyReplicas}=3"` yields
`(jsonpath, {.status.readyReplicas}=3)`. -/
theorem C5_parseCondition_first_eq_split :
    (∀ s : String, '=' ∉ s.toList → parseCondition s = none)
    ∧ (∀ a b : List Char, '=' ∉ a →
        parseCondition (String.mk (a ++ '=' :: b))
          = some (goToLower (goTrimSpace (String.mk a)), goTrimSpace (String.mk b)))
    ∧ parseCondition "condition=Ready" = some ("condition", "Ready")
    ∧ parseCondition "jsonpath={.status.readyReplicas}=3"
        = some ("jsonpath", "{.status.readyReplicas}=3") := by
  refine ⟨?_, ?_, by decide, by decide⟩
  · intro s hs
    unfold parseCondition
    rw [(splitAtFirstEq_eq_none s.toList).mpr hs]
  · intro a b ha
    unfold parseCondition
    rw [show (String.mk (a ++ '=' :: b)).toList = a ++ '=' :: b from rfl,
      splitAtFirstEq_append a b ha]

/-- Witness for C5 at concrete inputs. -/
theorem C5_parseCondition_first_eq_split_witness :
    parseCondition "nonsense" = none
    ∧ parseCondition (String.mk (['a'] ++ '=' :: ['b']))
        = some (goToLower (goTrimSpace (String.mk ['a'])), goTrimSpace (String.mk ['b'])) :=
  ⟨C5_parseCondition_first_eq_split.1 "nonsense" (by decide),
   C5_parseCondition_first_eq_split.2.1 ['a'] ['b'] (by decide)⟩

/-! ## Claim C10 -/

/-- Counterexample to C10 as stated: the nonsense-but-`=`-containing
expression `"foo=bar"` parses to kind `foo`, yet the service strategy does
not match zero objects — it ignores the condition and reports success on a
single listed service. -/
theorem C10_counterexample :
    parseCondition "foo=bar" = some ("foo", "bar")
    ∧ checkServiceCondition ⟨"services", "", "default", "", "", "foo=bar", false, 300, 5⟩
        0 [⟨"svc1"⟩] "foo" "bar"
      = { conditionMet := true, lastChecked := 0, message := "Found 1 matching services" } := by
  constructor
  · decide
  · rfl

/-- Claim C10 (amended): the parser succeeds on every input containing at
least one `'='` — including empty-kind `"=Ready"` and empty-value
`"condition="` — and errors exactly when no `'='` is present; an unrecognised
parsed kind silently matches zero objects (conditionMet = false) in the node,
pod, deployment, daemonset, statefulset, job, cronjob and ingress strategies,
while the service strategy ignores the parsed condition entirely and reports
success whenever its listed set is non-empty. -/
theorem C10_amended_parser_totality :
    (∀ s : String, parseCondition s = none ↔ '=' ∉ s.toList)
    ∧ parseCondition "=Ready" = some ("", "Ready")
    ∧ parseCondition "condition=" = some ("condition", "")
    ∧ (∀ cfg : WaitConfig, ∀ now : Nat, ∀ ct cv : String,
        (ct ≠ "condition" →
          (∀ ns, (checkNodeCondition cfg now ns ct cv).conditionMet = false)
          ∧ (∀ ds, (checkDeploymentCondition cfg now ds ct cv).conditionMet = false))
        ∧ (ct ≠ "condition" → ct ≠ "phase" →
            ∀ ps, (checkPodCondition cfg now ps ct cv).conditionMet = false)
        ∧ (ct ≠ "condition" → ct ≠ "ready" →
            (∀ ds, (checkDaemonSetCondition cfg now ds ct cv).conditionMet = false)
            ∧ (∀ ss, (checkStatefulSetCondition cfg now ss ct cv).conditionMet = false))
        ∧ (ct ≠ "condition" → ct ≠ "complete" →
            ∀ js, (checkJobCondition cfg now js ct cv).conditionMet = false)
        ∧ (ct ≠ "jsonpath" → ct ≠ "exist" → ct ≠ "exists" →
            ∀ cjs, (checkCronJobCondition cfg now cjs ct cv).conditionMet = false)
        ∧ (ct ≠ "jsonpath" → ct ≠ "exist" → ct ≠ "exists" → ct ≠ "loadbalancer" →
            ∀ ings, (checkIngressCondition cfg now ings ct cv).conditionMet = false)
        ∧ (∀ svcs, svcs ≠ [] →
            (checkServiceCondition cfg now svcs ct cv).conditionMet = true)) := by
  refine ⟨?_, by decide, by decide, ?_⟩
  · intro s
    constructor
    · intro hp
      cases h : splitAtFirstEq s.toList with
      | none => exact (splitAtFirstEq_eq_none s.toList).mp h
      | some p =>
        obtain ⟨a, b⟩ := p
        unfold parseCondition at hp
        rw [h] at hp
        simp at hp
    · intro hs
      unfold parseCondition
      rw [(splitAtFirstEq_eq_none s.toList).mpr hs]
  · intro cfg now ct cv
    have metFalse : ∀ {α : Type} (items : List α) (p : α → Bool)
        (noMatchMsg kindLabel : String),
        (∀ x ∈ items, p x = false) →
        (if items.isEmpty then
            ({ conditionMet := false, lastChecked := now, message := noMatchMsg } : WaitResult)
          else aggregateResult cfg.all (countMatching p items) items.length
            kindLabel cfg.condition now).conditionMet = false := by
      intro α items p noMatchMsg kindLabel hp
      by_cases hi : items.isEmpty
      · simp [hi]
      · rw [if_neg hi, countMatching_eq_zero hp]
        exact aggregateResult_zero_met _ _ _ _ _ (by
          intro hlen
          exact hi (List.isEmpty_iff_length_eq_zero.mpr hlen))
    refine ⟨?_, ?_, ?_, ?_, ?_, ?_, ?_⟩
    · intro hct
      have hb : (ct == "condition") = false := beq_eq_false_iff_ne.mpr hct
      exact ⟨fun ns => metFalse _ _ _ _ (fun x _ => by simp [nodeMatches, hb]),
        fun ds => metFalse _ _ _ _ (fun x _ => by simp [deploymentMatches, hb])⟩
    · intro hct hph ps
      have hb : (ct == "condition") = false := beq_eq_false_iff_ne.mpr hct
      have hb2 : (ct == "phase") = false := beq_eq_false_iff_ne.mpr hph
      exact metFalse _ _ _ _ (fun x _ => by simp [podMatches, hb, hb2])
    · intro hct hrd
      have hb : (ct == "condition") = false := beq_eq_false_iff_ne.mpr hct
      have hb2 : (ct == "ready") = false := beq_eq_false_iff_ne.mpr hrd
      exact ⟨fun ds => metFalse _ _ _ _ (fun x _ => by simp [daemonSetMatches, hb, hb2]),
        fun ss => metFalse _ _ _ _ (fun x _ => by simp [statefulSetMatches, hb, hb2])⟩
    · intro hct hcm js
      have hb : (ct == "condition") = false := beq_eq_false_iff_ne.mpr hct
      have hb2 : (ct == "complete") = false := beq_eq_false_iff_ne.mpr hcm
      exact metFalse _ _ _ _ (fun x _ => by simp [jobMatches, hb, hb2])
    · intro h1 h2 h3 cjs
      have hb1 : (ct == "jsonpath") = false := beq_eq_false_iff_ne.mpr h1
      have hb2 : (ct == "exist") = false := beq_eq_false_iff_ne.mpr h2
      have hb3 : (ct == "exists") = false := beq_eq_false_iff_ne.mpr h3
      exact metFalse _ _ _ _ (fun x _ => by simp [cronJobMatches, hb1, hb2, hb3])
    · intro h1 h2 h3 h4 ings
      have hb1 : (ct == "jsonpath") = false := beq_eq_false_iff_ne.mpr h1
      have hb2 : (ct == "exist") = false := beq_eq_false_iff_ne.mpr h2
      have hb3 : (ct == "exists") = false := beq_eq_false_iff_ne.mpr h3
      have hb4 : (ct == "loadbalancer") = false := beq_eq_false_iff_ne.mpr h4
      exact metFalse _ _ _ _ (fun x _ => by simp [ingressMatches, hb1, hb2, hb3, hb4])
    · intro svcs hs
      unfold checkServiceCondition
      rw [if_neg (by simpa [List.isEmpty_iff] using hs)]

/-- Witness for C10 at a concrete unrecognised condition kind. -/
theorem C10_amended_parser_totality_witness :
    (checkNodeCondition ⟨"nodes", "", "", "", "", "foo=bar", false, 300, 5⟩ 0
        [⟨"n1", [⟨"Ready", "True"⟩]⟩] "foo" "bar").conditionMet = false :=
  ((C10_amended_parser_totality.2.2.2
      ⟨"nodes", "", "", "", "", "foo=bar", false, 300, 5⟩ 0 "foo" "bar").1
    (by decide)).1 [⟨"n1", [⟨"Ready", "True"⟩]⟩]

/-! ## Shared shape lemmas for the counting strategies -/

theorem checkResult_met_iff (items : List α) (p : α → Bool) (noMsg kindLabel : String)
    (all : Bool) (cond : String) (now : Nat) :
    ((if items.isEmpty then
        ({ conditionMet := false, lastChecked := now, message := noMsg } : WaitResult)
      else aggregateResult all (countMatching p items) items.length
        kindLabel cond now).conditionMet = true
      ↔ (items ≠ []
          ∧ if all then countMatching p items = items.length
            else 0 < countMatching p items)) := by
  by_cases hi : items.isEmpty
  · simp [hi, List.isEmpty_iff.mp hi]
  · rw [if_neg hi]
    have hne : items ≠ [] := by simpa [List.isEmpty_iff] using hi
    unfold aggregateResult
    cases all <;> simp [hne]

theorem checkResult_message (items : List α) (p : α → Bool) (noMsg kindLabel : String)
    (all : Bool) (cond : String) (now : Nat) :
    (if items.isEmpty then
        ({ conditionMet := false, lastChecked := now, message := noMsg } : WaitResult)
      else aggregateResult all (countMatching p items) items.length
        kindLabel cond now).message
    = if items.isEmpty then noMsg
      else countMessage (countMatching p items) items.length kindLabel cond := by
  by_cases hi : items.isEmpty <;> simp [hi, aggregateResult]

/-! ## Claim C4 -/

/-- Claim C4: for the node and pod strategies, the evaluation outcome
aggregates as specified — an empty evaluated set yields `conditionMet =
false` regardless of `matchAll`; with `matchAll` set, `conditionMet` holds
exactly when `matched = total`; otherwise exactly when `matched > 0`. -/
theorem C4_aggregation_policy :
    ∀ (cfg : WaitConfig) (now : Nat) (ct cv : String),
      (∀ ns : List Node,
        ((checkNodeCondition cfg now ns ct cv).conditionMet = true
          ↔ (nodeEvalSet cfg ns ≠ []
              ∧ if cfg.all then
                  countMatching (nodeMatches ct cv) (nodeEvalSet cfg ns)
                    = (nodeEvalSet cfg ns).length
                else 0 < countMatching (nodeMatches ct cv) (nodeEvalSet cfg ns))))
      ∧ (∀ ps : List Pod,
        ((checkPodCondition cfg now ps ct cv).conditionMet = true
          ↔ (podEvalSet cfg ps ≠ []
              ∧ if cfg.all then
                  countMatching (podMatches ct cv) (podEvalSet cfg ps)
                    = (podEvalSet cfg ps).length
                else 0 < countMatching (podMatches ct cv) (podEvalSet cfg ps)))) := by
  intro cfg now ct cv
  exact ⟨fun ns => checkResult_met_iff (nodeEvalSet cfg ns) (nodeMatches ct cv)
      "No matching nodes found" "nodes" cfg.all cfg.condition now,
    fun ps => checkResult_met_iff (podEvalSet cfg ps) (podMatches ct cv)
      "No matching pods found" "pods" cfg.all cfg.condition now⟩

/-! ## Claim C3 -/

/-- Counterexample to C3 as stated: on a successful evaluation of one listed
service, the service strategy emits `"Found 1 matching services"`, which is
not of the form `"<matched>/<total> services meet condition <expr>"` for any
matched count `0 ≤ matched ≤ total = 1`. -/
theorem C3_counterexample :
    checkServiceCondition ⟨"services", "", "default", "", "", "condition=Ready", false, 300, 5⟩
        0 [⟨"svc1"⟩] "condition" "Ready"
      = { conditionMet := true, lastChecked := 0, message := "Found 1 matching services" }
    ∧ "Found 1 matching services" ≠ "0/1 services meet condition condition=Ready"
    ∧ "Found 1 matching services" ≠ "1/1 services meet condition condition=Ready" := by
  refine ⟨rfl, by decide, by decide⟩

/-- Claim C3 (amended): every strategy except the service one reports
`"<matched>/<total> <kind> meet condition <conditionExpr>"` on a non-empty
evaluated set and `"No matching <kind> found"` on an empty one; the service
strategy instead reports `"Found <total> matching services"` on success and
`"No matching services found"` when its listed set is empty. -/
theorem C3_amended_message_contract :
    ∀ (cfg : WaitConfig) (now : Nat) (ct cv : String),
      (∀ ns, (checkNodeCondition cfg now ns ct cv).message
        = if (nodeEvalSet cfg ns).isEmpty then "No matching nodes found"
          else countMessage (countMatching (nodeMatches ct cv) (nodeEvalSet cfg ns))
            (nodeEvalSet cfg ns).length "nodes" cfg.condition)
      ∧ (∀ ps, (checkPodCondition cfg now ps ct cv).message
        = if (podEvalSet cfg ps).isEmpty then "No matching pods found"
          else countMessage (countMatching (podMatches ct cv) (podEvalSet cfg ps))
            (podEvalSet cfg ps).length "pods" cfg.condition)
      ∧ (∀ ds, (checkDeploymentCondition cfg now ds ct cv).message
        = if (deploymentEvalSet cfg ds).isEmpty then "No matching deployments found"
          else countMessage (countMatching (deploymentMatches ct cv) (deploymentEvalSet cfg ds))
            (deploymentEvalSet cfg ds).length "deployments" cfg.condition)
      ∧ (∀ ds, (checkDaemonSetCondition cfg now ds ct cv).message
        = if (daemonSetEvalSet cfg ds).isEmpty then "No matching daemonsets found"
          else countMessage (countMatching (daemonSetMatches ct cv) (daemonSetEvalSet cfg ds))
            (daemonSetEvalSet cfg ds).length "daemonsets" cfg.condition)
      ∧ (∀ ss, (checkStatefulSetCondition cfg now ss ct cv).message
        = if (statefulSetEvalSet cfg ss).isEmpty then "No matching statefulsets found"
          else countMessage (countMatching (statefulSetMatches ct cv) (statefulSetEvalSet cfg ss))
            (statefulSetEvalSet cfg ss).length "statefulsets" cfg.condition)
      ∧ (∀ js, (checkJobCondition cfg now js ct cv).message
        = if (jobEvalSet cfg js).isEmpty then "No matching jobs found"
          else countMessage (countMatching (jobMatches ct cv) (jobEvalSet cfg js))
            (jobEvalSet cfg js).length "jobs" cfg.condition)
      ∧ (∀ cjs, (checkCronJobCondition cfg now cjs ct cv).message
        = if (cronJobEvalSet cfg cjs).isEmpty then "No matching cronjobs found"
          else countMessage (countMatching (cronJobMatches ct cv) (cronJobEvalSet cfg cjs))
            (cronJobEvalSet cfg cjs).length "cronjobs" cfg.condition)
      ∧ (∀ ings, (checkIngressCondition cfg now ings ct cv).message
        = if (ingressEvalSet cfg ings).isEmpty then "No matching ingresses found"
          else countMessage (countMatching (ingressMatches ct cv) (ingressEvalSet cfg ings))
            (ingressEvalSet cfg ings).length "ingresses" cfg.condition)
      ∧ (∀ svcs, (checkServiceCondition cfg now svcs ct cv).message
        = if svcs.isEmpty then "No matching services found"
          else "Found " ++ toString svcs.length ++ " matching services") := by
  intro cfg now ct cv
  refine ⟨fun ns => checkResult_message _ _ _ _ _ _ _,
    fun ps => checkResult_message _ _ _ _ _ _ _,
    fun ds => checkResult_message _ _ _ _ _ _ _,
    fun ds => checkResult_message _ _ _ _ _ _ _,
    fun ss => checkResult_message _ _ _ _ _ _ _,
    fun js => checkResult_message _ _ _ _ _ _ _,
    fun cjs => checkResult_message _ _ _ _ _ _ _,
    fun ings => checkResult_message _ _ _ _ _ _ _,
    fun svcs => ?_⟩
  unfold checkServiceCondition
  by_cases hi : svcs.isEmpty <;> simp [hi]

/-! ## Claim C2 -/

/-- Counterexample to C2 as stated: with `name = "a"` set, the deployment
strategy keeps the entire two-element list once the named deployment is
found, so the reported total is 2 and the success is contributed by the
deployment named `"b"`, which does not bear the requested name. -/
theorem C2_counterexample :
    deploymentEvalSet ⟨"deployments", "a", "default", "", "", "condition=Available", false, 300, 5⟩
        [⟨"a", []⟩, ⟨"b", [⟨"Available", "True"⟩]⟩]
      = [⟨"a", []⟩, ⟨"b", [⟨"Available", "True"⟩]⟩]
    ∧ checkDeploymentCondition
        ⟨"deployments", "a", "default", "", "", "condition=Available", false, 300, 5⟩
        0 [⟨"a", []⟩, ⟨"b", [⟨"Available", "True"⟩]⟩] "condition" "Available"
      = { conditionMet := true, lastChecked := 0
          message := "1/2 deployments meet condition condition=Available" }
    ∧ ¬ (deploymentEvalSet
          ⟨"deployments", "a", "default", "", "", "condition=Available", false, 300, 5⟩
          [⟨"a", []⟩, ⟨"b", [⟨"Available", "True"⟩]⟩]).length ≤ 1 := by
  refine ⟨rfl, rfl, by decide⟩

/-- Claim C2 (amended): only the node and pod strategies filter the evaluated
set down to the objects bearing the configured name (so with pairwise
distinct listed names the total is 0 or 1, every counted object bears that
name, and zero matches yields the fixed no-matching message with
`conditionMet = false` and no error); the deployment, daemonset, statefulset,
job, cronjob and ingress strategies clear the set only when no object bears
the name and otherwise evaluate the entire unfiltered list, and the service
strategy ignores the name entirely. -/
theorem C2_amended_name_filtering :
    ∀ (cfg : WaitConfig) (now : Nat) (ct cv : String),
      (∀ ns : List Node, cfg.name ≠ "" →
        (∀ n ∈ nodeEvalSet cfg ns, n.name = cfg.name)
        ∧ ((ns.map Node.name).Nodup → (nodeEvalSet cfg ns).length ≤ 1))
      ∧ (∀ ns : List Node, nodeEvalSet cfg ns = [] →
          checkNodeCondition cfg now ns ct cv
            = { conditionMet := false, lastChecked := now
                message := "No matching nodes found" })
      ∧ (∀ ps : List Pod, cfg.name ≠ "" →
        (∀ p ∈ podEvalSet cfg ps, p.name = cfg.name)
        ∧ ((ps.map Pod.name).Nodup → (podEvalSet cfg ps).length ≤ 1))
      ∧ (∀ ps : List Pod, podEvalSet cfg ps = [] →
          checkPodCondition cfg now ps ct cv
            = { conditionMet := false, lastChecked := now
                message := "No matching pods found" })
      ∧ (∀ ds : List Deployment, cfg.name ≠ "" →
        ((∀ d ∈ ds, d.name ≠ cfg.name) → deploymentEvalSet cfg ds = [])
        ∧ (∀ d ∈ ds, d.name = cfg.name → deploymentEvalSet cfg ds = ds))
      ∧ (∀ ds : List DaemonSet, cfg.name ≠ "" →
        ((∀ d ∈ ds, d.name ≠ cfg.name) → daemonSetEvalSet cfg ds = [])
        ∧ (∀ d ∈ ds, d.name = cfg.name → daemonSetEvalSet cfg ds = ds))
      ∧ (∀ ss : List StatefulSet, cfg.name ≠ "" →
        ((∀ s ∈ ss, s.name ≠ cfg.name) → statefulSetEvalSet cfg ss = [])
        ∧ (∀ s ∈ ss, s.name = cfg.name → statefulSetEvalSet cfg ss = ss))
      ∧ (∀ js : List Job, cfg.name ≠ "" →
        ((∀ j ∈ js, j.name ≠ cfg.name) → jobEvalSet cfg js = [])
        ∧ (∀ j ∈ js, j.name = cfg.name → jobEvalSet cfg js = js))
      ∧ (∀ cjs : List CronJob, cfg.name ≠ "" →
        ((∀ cj ∈ cjs, cj.name ≠ cfg.name) → cronJobEvalSet cfg cjs = [])
        ∧ (∀ cj ∈ cjs, cj.name = cfg.name → cronJobEvalSet cfg cjs = cjs))
      ∧ (∀ ings : List Ingress, cfg.name ≠ "" →
        ((∀ ing ∈ ings, ing.name ≠ cfg.name) → ingressEvalSet cfg ings = [])
        ∧ (∀ ing ∈ ings, ing.name = cfg.name → ingressEvalSet cfg ings = ings))
      ∧ (∀ svcs : List Service,
          checkServiceCondition cfg now svcs ct cv
            = checkServiceCondition { cfg with name := "" } now svcs ct cv) := by
  intro cfg now ct cv
  have hemptyNode : ∀ ns : List Node, nodeEvalSet cfg ns = [] →
      checkNodeCondition cfg now ns ct cv
        = { conditionMet := false, lastChecked := now, message := "No matching nodes found" } := by
    intro ns h
    unfold checkNodeCondition
    rw [h]
    rfl
  have hemptyPod : ∀ ps : List Pod, podEvalSet cfg ps = [] →
      checkPodCondition cfg now ps ct cv
        = { conditionMet := false, lastChecked := now, message := "No matching pods found" } := by
    intro ps h
    unfold checkPodCondition
    rw [h]
    rfl
  refine ⟨?_, hemptyNode, ?_, hemptyPod, ?_, ?_, ?_, ?_, ?_, ?_, fun svcs => rfl⟩
  · intro ns hnm
    refine ⟨fun n hn => filterByName_mem hnm hn, fun hnodup => ?_⟩
    unfold nodeEvalSet filterByName
    rw [if_pos hnm]
    exact filter_name_length_le_one hnodup
  · intro ps hnm
    refine ⟨fun p hp => filterByName_mem hnm hp, fun hnodup => ?_⟩
    unfold podEvalSet filterByName
    rw [if_pos hnm]
    exact filter_name_length_le_one hnodup
  · intro ds hnm
    exact ⟨keepAllIfNamed_eq_nil hnm, fun d hd hdn => keepAllIfNamed_eq_self hd hdn⟩
  · intro ds hnm
    exact ⟨keepAllIfNamed_eq_nil hnm, fun d hd hdn => keepAllIfNamed_eq_self hd hdn⟩
  · intro ss hnm
    exact ⟨keepAllIfNamed_eq_nil hnm, fun s hs hsn => keepAllIfNamed_eq_self hs hsn⟩
  · intro js hnm
    exact ⟨keepAllIfNamed_eq_nil hnm, fun j hj hjn => keepAllIfNamed_eq_self hj hjn⟩
  · intro cjs hnm
    exact ⟨keepAllIfNamed_eq_nil hnm, fun cj hcj hcjn => keepAllIfNamed_eq_self hcj hcjn⟩
  · intro ings hnm
    exact ⟨keepAllIfNamed_eq_nil hnm, fun ing hing hingn => keepAllIfNamed_eq_self hing hingn⟩

/-- Witness for C2 at a concrete configuration and list. -/
theorem C2_amended_name_filtering_witness :
    (nodeEvalSet ⟨"nodes", "a", "", "", "", "condition=Ready", false, 300, 5⟩
      [⟨"a", []⟩, ⟨"b", []⟩]).length ≤ 1
    ∧ checkNodeCondition ⟨"nodes", "z", "", "", "", "condition=Ready", false, 300, 5⟩
        7 [⟨"a", []⟩, ⟨"b", []⟩] "condition" "Ready"
      = { conditionMet := false, lastChecked := 7, message := "No matching nodes found" } :=
  ⟨((C2_amended_name_filtering
        ⟨"nodes", "a", "", "", "", "condition=Ready", false, 300, 5⟩ 0 "condition" "Ready").1
      [⟨"a", []⟩, ⟨"b", []⟩] (by decide)).2 (by decide),
   (C2_amended_name_filtering
        ⟨"nodes", "z", "", "", "", "condition=Ready", false, 300, 5⟩ 7 "condition" "Ready").2.1
      [⟨"a", []⟩, ⟨"b", []⟩] (by decide)⟩

/-! ## Driver lemmas -/

theorem waitDriveGo_succ (cond : String) (check : Nat → WaitResult × Option String)
    (interval timeout fuel k : Nat) :
    waitDriveGo cond check interval timeout (fuel + 1) k
      = if timeout ≤ k * interval then timeoutOutcome cond timeout k
        else
          match check k with
          | (r, some e) => { result := r, evals := k, elapsed := k * interval, error := some e }
          | (r, none) =>
            if r.conditionMet then
              { result := r, evals := k, elapsed := k * interval, error := none }
            else waitDriveGo cond check interval timeout fuel (k + 1) := rfl

theorem waitDriveGo_evals_ge (cond : String) (check : Nat → WaitResult × Option String)
    (interval timeout : Nat) :
    ∀ fuel k, k - 1 ≤ (waitDriveGo cond check interval timeout fuel k).evals := by
  intro fuel
  induction fuel with
  | zero => intro k; exact Nat.le_refl _
  | succ fuel ih =>
    intro k
    rw [waitDriveGo_succ]
    by_cases ht : timeout ≤ k * interval
    · rw [if_pos ht]; exact Nat.le_refl _
    · rw [if_neg ht]
      cases hc : check k with
      | mk r e =>
        cases e with
        | some err => exact Nat.sub_le _ _
        | none =>
          by_cases hm : r.conditionMet
          · simp only [hm, if_true]
            exact Nat.sub_le _ _
          · simp only [hm, if_false]
            exact Nat.le_trans (Nat.sub_le_sub_right (Nat.le_succ k) 1) (ih (k + 1))

/-! ## Claim C1 -/

/-- Counterexample to C1 as stated: with the schema defaults (interval 5,
timeout 300) and a condition already satisfied at the first evaluation, the
driver still returns only at time 5 — a full poll interval is slept before
the first check, so the first evaluation is not performed immediately on
entry. -/
theorem C1_counterexample :
    waitDrive "condition=Ready" (fun k => (⟨true, k * 5, "ok"⟩, none)) 5 300
      = { result := { conditionMet := true, lastChecked := 5, message := "ok" }
          evals := 1, elapsed := 5, error := none }
    ∧ (waitDrive "condition=Ready" (fun k => (⟨true, k * 5, "ok"⟩, none)) 5 300).elapsed ≠ 0 := by
  refine ⟨rfl, by decide⟩

/-- Claim C1 (amended): the polling driver performs its first evaluation only
after one full poll interval has elapsed; if the condition is satisfied on
that first evaluation (and the interval is below the timeout), the driver
returns that result having performed exactly one evaluation, at time
`interval`, with no error. -/
theorem C1_amended_first_tick (cond : String) (check : Nat → WaitResult × Option String)
    (r : WaitResult) (interval timeout : Nat)
    (hcheck : check 1 = (r, none)) (hmet : r.conditionMet = true)
    (hlt : interval < timeout) :
    waitDrive cond check interval timeout
      = { result := r, evals := 1, elapsed := interval, error := none } := by
  unfold waitDrive
  rw [waitDriveGo_succ]
  rw [if_neg (by rw [Nat.one_mul]; exact Nat.not_le.mpr hlt)]
  rw [hcheck]
  simp only [hmet, if_true, Nat.one_mul]

/-- Witness for C1 (amended) at the schema defaults. -/
theorem C1_amended_first_tick_witness :
    waitDrive "condition=Ready" (fun k => (⟨true, k * 5, "first"⟩, none)) 5 300
      = { result := { conditionMet := true, lastChecked := 5, message := "first" }
          evals := 1, elapsed := 5, error := none } :=
  C1_amended_first_tick "condition=Ready" _ _ 5 300 rfl rfl (by decide)

/-! ## Claim C7 -/

/-- Counterexample to C7 as stated: with timeout 300 > 0 and poll interval
400 > 0, the first tick would only occur at time 400, past the deadline, so
the driver times out having performed zero evaluations. -/
theorem C7_counterexample :
    waitDrive "condition=Ready" (fun k => (⟨true, k * 400, "ok"⟩, none)) 400 300
      = timeoutOutcome "condition=Ready" 300 1
    ∧ (waitDrive "condition=Ready" (fun k => (⟨true, k * 400, "ok"⟩, none)) 400 300).evals
        = 0 := by
  refine ⟨rfl, rfl⟩

/-- Claim C7 (amended): with timeout > 0 and poll interval > 0, the driver
performs at least one evaluation whenever the poll interval is strictly below
the timeout; when the timeout does not exceed the interval it returns the
timed-out outcome having performed zero evaluations. -/
theorem C7_amended_at_least_one_eval (cond : String)
    (check : Nat → WaitResult × Option String) (interval timeout : Nat)
    (hpos : 0 < interval) :
    (interval < timeout → 1 ≤ (waitDrive cond check interval timeout).evals)
    ∧ (timeout ≤ interval →
        waitDrive cond check interval timeout = timeoutOutcome cond timeout 1
        ∧ (waitDrive cond check interval timeout).evals = 0) := by
  constructor
  · intro hlt
    unfold waitDrive
    rw [waitDriveGo_succ]
    rw [if_neg (by rw [Nat.one_mul]; exact Nat.not_le.mpr hlt)]
    cases hc : check 1 with
    | mk r e =>
      cases e with
      | some err => exact Nat.le_refl _
      | none =>
        by_cases hm : r.conditionMet
        · simp only [hm, if_true]
          exact Nat.le_refl _
        · simp only [hm, if_false]
          exact waitDriveGo_evals_ge cond check interval timeout timeout 2
  · intro hle
    have : waitDrive cond check interval timeout = timeoutOutcome cond timeout 1 := by
      unfold waitDrive
      rw [waitDriveGo_succ]
      rw [if_pos (by rw [Nat.one_mul]; exact hle)]
    exact ⟨this, by rw [this]; rfl⟩

/-- Witness for C7 (amended) at concrete timings. -/
theorem C7_amended_at_least_one_eval_witness :
    1 ≤ (waitDrive "condition=Ready" (fun k => (⟨false, k * 5, "no"⟩, none)) 5 300).evals :=
  (C7_amended_at_least_one_eval "condition=Ready" _ 5 300 (by decide)).1 (by decide)

/-! ## Claim C9 -/

/-- Counterexample to C9 as stated: the unregistered kind `"widgets"` does
resolve to the generic fallback without a resolution error, but that fallback
does not degrade to a best-effort evaluation — it returns a not-implemented
hard error. -/
theorem C9_counterexample :
    (checkCondition none
        ⟨emptyView, ⟨"widgets", "", "default", "", "", "condition=Ready", false, 300, 5⟩⟩ 0).2
      = ({ conditionMet := false, lastChecked := 0
           message := "Generic condition checking for resource type 'widgets' not yet implemented" }
        , some "generic condition checking not implemented for resource type: widgets")
    ∧ (checkCondition none
        ⟨emptyView, ⟨"widgets", "", "default", "", "", "condition=Ready", false, 300, 5⟩⟩ 0).2.2
      ≠ none := by
  exact ⟨by decide, by decide⟩

/-- Claim C9 (amended): the registry resolves the lower-cased kind by exact
match first, then by retrying with a trailing `"s"` stripped, and otherwise
falls back to the generic strategy; `"pods"` and `"pod"` resolve to the same
strategy, `"widgets"` resolves to the fallback with no error at resolution
time — but the generic fallback itself returns a not-implemented error
instead of a best-effort evaluation. -/
theorem C9_amended_resolution :
    resolveStrategy "pods" = some StrategyTag.pod
    ∧ resolveStrategy "pod" = some StrategyTag.pod
    ∧ resolveStrategy (goToLower "PODS") = some StrategyTag.pod
    ∧ resolveStrategy "widgets" = none
    ∧ (∀ reg : Option Checker, ∀ caller : Checker, ∀ now : Nat, ∀ ct cv : String,
        parseCondition caller.cfg.condition = some (ct, cv) →
        resolveStrategy (goToLower caller.cfg.resource) = none →
        (checkCondition reg caller now).2 = checkGenericCondition caller.cfg now)
    ∧ (∀ cfg : WaitConfig, ∀ now : Nat,
        (checkGenericCondition cfg now).2
          = some ("generic condition checking not implemented for resource type: "
              ++ cfg.resource)) := by
  refine ⟨by decide, by decide, by decide, by decide, ?_, fun cfg now => rfl⟩
  intro reg caller now ct cv hparse hres
  unfold checkCondition
  rw [hparse, hres]

/-- Witness for C9 at the concrete unregistered kind `"widgets"`. -/
theorem C9_amended_resolution_witness :
    (checkCondition none
        ⟨emptyView, ⟨"widgets", "", "default", "", "", "condition=Ready", false, 300, 5⟩⟩ 0).2
      = checkGenericCondition ⟨"widgets", "", "default", "", "", "condition=Ready", false, 300, 5⟩ 0 :=
  C9_amended_resolution.2.2.2.2.1 none
    ⟨emptyView, ⟨"widgets", "", "default", "", "", "condition=Ready", false, 300, 5⟩⟩ 0
    "condition" "Ready" (by decide) (by decide)

/-! ## Claim C6 -/

/-- A checker whose client sees one Ready node. -/
def checkerA : Checker :=
  ⟨{ emptyView with nodes := [⟨"n1", [⟨"Ready", "True"⟩]⟩] },
   ⟨"nodes", "", "", "", "", "condition=Ready", false, 300, 5⟩⟩

/-- A checker with the same configuration whose client sees no nodes. -/
def checkerB : Checker :=
  ⟨emptyView, ⟨"nodes", "", "", "", "", "condition=Ready", false, 300, 5⟩⟩

/-- Claim C6 fails on the code: the lazily built registry stores strategy
functions bound to the checker that first populated it, so checker B's
`CheckCondition` result depends on which instance initialised the registry —
after checker A has populated it, B's call is answered from A's client (one
Ready node) instead of B's own empty view. -/
theorem C6_registry_capture :
    (checkCondition none checkerA 0).1 = some checkerA
    ∧ (checkCondition (some checkerA) checkerB 0).2
      = ({ conditionMet := true, lastChecked := 0
           message := "1/1 nodes meet condition condition=Ready" }, none)
    ∧ (checkCondition none checkerB 0).2
      = ({ conditionMet := false, lastChecked := 0
           message := "No matching nodes found" }, none)
    ∧ (checkCondition (some checkerA) checkerB 0).2 ≠ (checkCondition none checkerB 0).2 := by
  refine ⟨by decide, by decide, by decide, by decide⟩

/-! ## Claim C8 -/

/-- Claim C8 fails on the code: `BaseWaitResource.Read` never invokes the
polling driver — the non-check-once re-check path is an unimplemented stub —
so every read reproduces the prior state verbatim with zero driver
invocations, while `Create` always invokes the driver exactly once. -/
theorem C8_read_never_reevaluates :
    (∀ prior : WaitState, baseWaitRead prior = ⟨some prior, 0⟩)
    ∧ (∀ cfg : WaitConfig, ∀ checkOnce : Bool, ∀ check : Nat → WaitResult × Option String,
        (baseWaitCreate cfg checkOnce check).driverInvocations = 1) := by
  constructor
  · intro prior
    unfold baseWaitRead
    split <;> rfl
  · intro cfg checkOnce check
    simp only [baseWaitCreate]
    split <;> rfl

end Kubewait
